import Mathlib

/-!
Verification of the tunneling-correction core of TAMkin
(`tamkin/tunneling.py`): the Eckart, Wigner and Miller tunneling
correction factors, their construction from partition-function data, and
the Eckart per-temperature integral.

The Python floats are modelled by an arbitrary linear ordered field for
the data-plumbing and validation layer (instantiated at ℚ for concrete
evaluations) and by ℝ for the mathematical formula layer (square roots,
hyperbolic functions, the integral).  The scipy adaptive quadrature
routine, an external numeric primitive, is modelled as the exact interval
integral.
-/

namespace Tamkin

/-- The `electronic` facade of a partition function: supplies the scalar
`energy` attribute read by `Eckart.__init__`. -/
structure Electronic (α : Type) where
  energy : α
  deriving DecidableEq

/-- The `vibrational` facade of a partition function: supplies the
`negative_freqs` sequence read by the three constructors. -/
structure Vibrational (α : Type) where
  negative_freqs : List α
  deriving DecidableEq

/-- A partition-function object, reduced to the two attributes the
tunneling module reads (`electronic.energy`, `vibrational.negative_freqs`). -/
structure PartitionFunction (α : Type) where
  electronic : Electronic α
  vibrational : Vibrational α
  deriving DecidableEq

/-- The messages of the `ValueError` exceptions raised in
`tamkin/tunneling.py`, as an enumeration:
`needReactant` = "At least one reactant is required." (line 97),
`needProduct` = "At least one product is required." (line 99),
`fwdBarrierNeg` = "The forward barrier is negative. ..." (lines 102, 120),
`revBarrierNeg` = "The reverse barrier is negative. ..." (lines 105, 122). -/
inductive ValueErrMsg where
  | needReactant
  | needProduct
  | fwdBarrierNeg
  | revBarrierNeg
  deriving DecidableEq

/-- The names whose lookup fails with a Python `NameError` in
`tamkin/tunneling.py`: the identifier `pf_prod` referenced by the
error-message expressions on lines 95, 206 and 245, which is not bound in
any of those scopes. -/
inductive UnboundName where
  | pf_prod
  deriving DecidableEq

/-- A Python exception escaping a constructor: either a `ValueError`
raised deliberately, or a `NameError` raised while evaluating an
expression that references an unbound identifier. -/
inductive PyExc where
  | valueError : ValueErrMsg → PyExc
  | nameError : UnboundName → PyExc
  deriving DecidableEq

deriving instance DecidableEq for Except

/-- The three scalar attributes stored on an `Eckart` instance. -/
structure EckartParams (α : Type) where
  Ef : α
  Er : α
  nu : α
  deriving DecidableEq

/-- The single scalar attribute stored on a `Wigner` instance. -/
structure WignerParams (α : Type) where
  nu : α
  deriving DecidableEq

/-- The single scalar attribute stored on a `Miller` instance. -/
structure MillerParams (α : Type) where
  nu : α
  deriving DecidableEq

variable {α : Type} [LinearOrderedField α]

/-- The forward-barrier expression of `Eckart.__init__` (line 100):
`pf_trans.electronic.energy - sum(pf.electronic.energy for pf in pfs_react)`.
The same expression with `pfs_prod` gives the reverse barrier (line 103). -/
def barrierEnergy (pf_trans : PartitionFunction α)
    (pfs : List (PartitionFunction α)) : α :=
  pf_trans.electronic.energy - (pfs.map (fun pf => pf.electronic.energy)).sum

/-- `Eckart.__init__(pfs_react, pf_trans, pfs_prod)` (lines 94-106),
embedded check for check, in source order:

* line 94: if `len(pf_trans.vibrational.negative_freqs) != 1`, the code
  executes `raise ValueError(... % len(pf_prod.negative_freqs))`; the
  message expression reads the identifier `pf_prod`, which is unbound in
  this scope, so the exception that actually escapes is a `NameError`,
  not the intended `ValueError`;
* line 96: if `len(pfs_react) == 0`, `ValueError` "At least one reactant
  is required.";
* line 98: the source tests `len(pfs_react) == 0` a second time (not
  `pfs_prod`) before raising "At least one product is required.", so this
  branch is unreachable and an empty product list is accepted;
* lines 100-105: the forward and reverse barriers with their negativity
  checks;
* line 106: `self.nu = pf_trans.vibrational.negative_freqs[0]`, taken
  here with `headD 0` (the list has length one on this path, so the
  default is never used). -/
def Eckart.init (pfs_react : List (PartitionFunction α))
    (pf_trans : PartitionFunction α)
    (pfs_prod : List (PartitionFunction α)) :
    Except PyExc (EckartParams α) :=
  if pf_trans.vibrational.negative_freqs.length ≠ 1 then
    .error (.nameError .pf_prod)
  else if pfs_react.length = 0 then
    .error (.valueError .needReactant)
  else if pfs_react.length = 0 then
    .error (.valueError .needProduct)
  else
    let Ef := barrierEnergy pf_trans pfs_react
    if Ef < 0 then
      .error (.valueError .fwdBarrierNeg)
    else
      let Er := barrierEnergy pf_trans pfs_prod
      if Er < 0 then
        .error (.valueError .revBarrierNeg)
      else
        .ok ⟨Ef, Er, pf_trans.vibrational.negative_freqs.headD 0⟩

/-- `Eckart._from_parameters(Ef, Er, nu)` (lines 108-127): the secondary
constructor repeats the two barrier-negativity checks and stores the
three parameters directly. -/
def Eckart.fromParameters (Ef Er nu : α) : Except PyExc (EckartParams α) :=
  if Ef < 0 then
    .error (.valueError .fwdBarrierNeg)
  else if Er < 0 then
    .error (.valueError .revBarrierNeg)
  else
    .ok ⟨Ef, Er, nu⟩

/-- `Wigner.__init__(pf_trans)` (lines 194-207): the single-negative-
frequency check (line 205) has the same unbound `pf_prod` in its message
expression (line 206) as `Eckart.__init__`, so its failure is a
`NameError`; on success `self.nu = pf_trans.vibrational.negative_freqs[0]`. -/
def Wigner.init (pf_trans : PartitionFunction α) :
    Except PyExc (WignerParams α) :=
  if pf_trans.vibrational.negative_freqs.length ≠ 1 then
    .error (.nameError .pf_prod)
  else
    .ok ⟨pf_trans.vibrational.negative_freqs.headD 0⟩

/-- `Wigner._from_parameters(nu)` (lines 209-220): stores `nu` with no
checks. -/
def Wigner.fromParameters (nu : α) : Except PyExc (WignerParams α) :=
  .ok ⟨nu⟩

/-- `Miller.__init__(pf_trans)` (lines 233-246): identical validation to
`Wigner.__init__`, including the unbound `pf_prod` in the message
expression (line 245). -/
def Miller.init (pf_trans : PartitionFunction α) :
    Except PyExc (MillerParams α) :=
  if pf_trans.vibrational.negative_freqs.length ≠ 1 then
    .error (.nameError .pf_prod)
  else
    .ok ⟨pf_trans.vibrational.negative_freqs.headD 0⟩

/-- `Miller._from_parameters(nu)` (lines 248-259): stores `nu` with no
checks. -/
def Miller.fromParameters (nu : α) : Except PyExc (MillerParams α) :=
  .ok ⟨nu⟩

/-- Modelled from the spec: the Planck constant `planck` supplied by the
external units module (molmod), in atomic units, where it equals `2 π`.
`Eckart._compute_one_temp` independently sets `h = 2*numpy.pi` with the
comment "the Planck constant in atomic units" (line 137), pinning this
value inside the source itself. -/
noncomputable def planck : ℝ := 2 * Real.pi

/-- Modelled from the spec: the Boltzmann constant `boltzmann` supplied by
the external units module (molmod), in atomic units (hartree per kelvin).
Only its strict positivity matters to the claims. -/
noncomputable def boltzmann : ℝ := 31668154051341965 / 10 ^ 22

/-- Modelled from the spec: the energy unit `kjmol` (one kJ/mol expressed
in atomic units) supplied by the external units module (molmod).  Only its
strict positivity matters to the claims. -/
noncomputable def kjmol : ℝ := 38087988488664 / 10 ^ 17

/-- The reduced barrier-width parameter of `Eckart._compute_one_temp`,
line 138: `l = (self.Ef**(-0.5) + self.Er**(-0.5))**(-1)*numpy.sqrt(2) / self.nu`.
Python's float `**` is real-exponent power (`Real.rpow`), and float
`**(-1)` is the multiplicative inverse. -/
noncomputable def eckartL (Ef Er nu : ℝ) : ℝ :=
  (Ef ^ (-(0.5 : ℝ)) + Er ^ (-(0.5 : ℝ)))⁻¹ * Real.sqrt 2 / nu

/-- The same barrier-width parameter as the spec writes it in step 1 of
the per-temperature evaluation:
`l = √2 / [ (Ef^(−1/2) + Er^(−1/2))^(−1) · ν ]`, that is,
`√2 · (Ef^(−1/2) + Er^(−1/2)) / ν`.  Stated for comparison with
`eckartL`, which follows the source. -/
noncomputable def eckartLSpec (Ef Er nu : ℝ) : ℝ :=
  Real.sqrt 2 * (Ef ^ (-(0.5 : ℝ)) + Er ^ (-(0.5 : ℝ))) / nu

/-- The local `h = 2*numpy.pi` of `Eckart._compute_one_temp` (line 137). -/
noncomputable def eckartH : ℝ := 2 * Real.pi

/-- `alpha(E) = numpy.sqrt(2*l**2*E/h**2)` (line 141). -/
noncomputable def eckartAlpha (l E : ℝ) : ℝ :=
  Real.sqrt (2 * l ^ 2 * E / eckartH ^ 2)

/-- `beta(E) = numpy.sqrt(2*l**2*(E -(self.Ef-self.Er))/h**2)` (line 144). -/
noncomputable def eckartBeta (Ef Er l E : ℝ) : ℝ :=
  Real.sqrt (2 * l ^ 2 * (E - (Ef - Er)) / eckartH ^ 2)

/-- `delta(E) = numpy.sqrt(4*self.Ef*self.Er/(h*self.nu)**2-0.25)`
(line 147); the energy argument is unused in the source body. -/
noncomputable def eckartDelta (Ef Er nu : ℝ) : ℝ :=
  Real.sqrt (4 * Ef * Er / (eckartH * nu) ^ 2 - 0.25)

/-- The transmission-probability kernel `P(E)` of
`Eckart._compute_one_temp` (lines 149-156):
`(cosh(2π(α+β)) − cosh(2π(α−β))) / (cosh(2π(α+β)) + cosh(2πδ))`,
with `l` the source's line-138 value. -/
noncomputable def eckartP (p : EckartParams ℝ) (E : ℝ) : ℝ :=
  let l := eckartL p.Ef p.Er p.nu
  (Real.cosh (2 * Real.pi * (eckartAlpha l E + eckartBeta p.Ef p.Er l E)) -
    Real.cosh (2 * Real.pi * (eckartAlpha l E - eckartBeta p.Ef p.Er l E))) /
  (Real.cosh (2 * Real.pi * (eckartAlpha l E + eckartBeta p.Ef p.Er l E)) +
    Real.cosh (2 * Real.pi * eckartDelta p.Ef p.Er p.nu))

/-- `integrandum(E) = P(E)*numpy.exp(-(E-self.Ef)/(boltzmann*temp))`
(lines 158-159). -/
noncomputable def eckartIntegrand (p : EckartParams ℝ) (T E : ℝ) : ℝ :=
  eckartP p E * Real.exp (-(E - p.Ef) / (boltzmann * T))

/-- `Eckart._compute_one_temp(temp)` (lines 129-175): integrate the
integrand over `[max(0, Ef-Er), 500*kjmol]` (lines 162-163, 173) and
multiply by `factor = 1.0/(boltzmann*temp)` (lines 174-175).  The scipy
adaptive quadrature call `quad(integrandum, emin, emax)` is an external
numeric primitive and is modelled as the exact interval integral; the
boundary-negligibility diagnostic (lines 165-170) only prints and does
not affect the returned value. -/
noncomputable def eckartComputeOneTemp (p : EckartParams ℝ) (T : ℝ) : ℝ :=
  (∫ E in (max 0 (p.Ef - p.Er))..(500 * kjmol), eckartIntegrand p T E) *
    (1 / (boltzmann * T))

/-- `Wigner.__call__` body (line 224) at a single temperature:
`1+(planck*self.nu/(boltzmann*temps))**2/24`. -/
noncomputable def wignerFactor (nu T : ℝ) : ℝ :=
  1 + (planck * nu / (boltzmann * T)) ^ 2 / 24

/-- `Miller.__call__` body (lines 263-264) at a single temperature:
`x = 0.5*planck*self.nu/(boltzmann*temps); return x/numpy.sin(x)`. -/
noncomputable def millerFactor (nu T : ℝ) : ℝ :=
  let x := 0.5 * planck * nu / (boltzmann * T)
  x / Real.sin x

/-- The argument of a `__call__`: Python distinguishes a scalar
temperature from a sequence by `hasattr(temps, "__len__")`
(line 179); numpy broadcasting over an array acts elementwise. -/
inductive Temps where
  | scalar : ℝ → Temps
  | vector : List ℝ → Temps

/-- The result of a `__call__`: a single factor for a scalar temperature,
a same-length sequence of factors for a sequence of temperatures. -/
inductive Factors where
  | scalar : ℝ → Factors
  | vector : List ℝ → Factors

/-- `Eckart.__call__(temps)` (lines 177-185): for a sequence, fill
`result[i] = self._compute_one_temp(temps[i])` in input order; for a
scalar, return `self._compute_one_temp(temps)`. -/
noncomputable def Eckart.call (p : EckartParams ℝ) : Temps → Factors
  | .scalar T => .scalar (eckartComputeOneTemp p T)
  | .vector Ts => .vector (Ts.map (eckartComputeOneTemp p))

/-- `Wigner.__call__(temps)` (lines 222-224): the numpy expression
broadcasts elementwise over an array argument and returns a scalar for a
scalar argument. -/
noncomputable def Wigner.call (q : WignerParams ℝ) : Temps → Factors
  | .scalar T => .scalar (wignerFactor q.nu T)
  | .vector Ts => .vector (Ts.map (wignerFactor q.nu))

/-- `Miller.__call__(temps)` (lines 261-264): the numpy expression
broadcasts elementwise over an array argument and returns a scalar for a
scalar argument. -/
noncomputable def Miller.call (r : MillerParams ℝ) : Temps → Factors
  | .scalar T => .scalar (millerFactor r.nu T)
  | .vector Ts => .vector (Ts.map (millerFactor r.nu))

/-- `Eckart.__call__` with the instance state made explicit: the method
bodies of `__call__` and `_compute_one_temp` contain no assignment to any
attribute of `self` (they only read `self.Ef`, `self.Er`, `self.nu`), so
the post-state is the pre-state. -/
noncomputable def Eckart.callSt (p : EckartParams ℝ) (t : Temps) :
    EckartParams ℝ × Factors :=
  (p, Eckart.call p t)

/-- `Wigner.__call__` with the instance state made explicit: the body
(line 224) contains no assignment to any attribute of `self`. -/
noncomputable def Wigner.callSt (q : WignerParams ℝ) (t : Temps) :
    WignerParams ℝ × Factors :=
  (q, Wigner.call q t)

/-- `Miller.__call__` with the instance state made explicit: the body
(lines 263-264) contains no assignment to any attribute of `self`. -/
noncomputable def Miller.callSt (r : MillerParams ℝ) (t : Temps) :
    MillerParams ℝ × Factors :=
  (r, Miller.call r t)

/-- A reactant or product species used in concrete evaluations: energy 1,
no negative frequencies. -/
def pfSpecies : PartitionFunction ℚ := ⟨⟨1⟩, ⟨[]⟩⟩

/-- A well-formed transition state used in concrete evaluations: energy 1,
exactly one negative frequency. -/
def pfTransOk : PartitionFunction ℚ := ⟨⟨1⟩, ⟨[-1]⟩⟩

/-- A transition state with no negative frequency. -/
def pfTransZero : PartitionFunction ℚ := ⟨⟨1⟩, ⟨[]⟩⟩

/-- A transition state with two negative frequencies. -/
def pfTransTwo : PartitionFunction ℚ := ⟨⟨1⟩, ⟨[-1, -2]⟩⟩

/-- A high-energy species (energy 5) making a barrier negative. -/
def pfHigh : PartitionFunction ℚ := ⟨⟨5⟩, ⟨[]⟩⟩

/-- Claim C1, failing input.  The claim says that an empty product list
`pfs_prod` is rejected with an `InvalidInput` error, as an empty reactant
list is.  On line 98 the source re-tests `len(pfs_react) == 0` instead of
`len(pfs_prod) == 0`, so with one reactant (energy 1), a valid transition
state (energy 1, one negative frequency) and an empty product list the
constructor succeeds and returns an instance with `Ef = 0`, `Er = 1`,
`nu = -1`; the empty reactant list, by contrast, is rejected as the claim
says. -/
theorem eckart_empty_product_list_accepted :
    Eckart.init [pfSpecies] pfTransOk ([] : List (PartitionFunction ℚ)) =
      .ok ⟨0, 1, -1⟩ ∧
    Eckart.init ([] : List (PartitionFunction ℚ)) pfTransOk [pfSpecies] =
      .error (.valueError .needReactant) := by
  refine ⟨?_, by decide⟩
  norm_num [Eckart.init, pfSpecies, pfTransOk, barrierEnergy,
    EckartParams.mk.injEq]

/-- Claim C2, failing behaviour.  The claim says a transition state whose
`negative_freqs` has length 0 or 2 is rejected by the Eckart, Wigner and
Miller constructors with a `ValueError` whose message reports the
offending count.  In the source the message expression of that
`ValueError` reads the unbound identifier `pf_prod` (lines 95, 206, 245),
so all three constructors fail with a `NameError` instead: construction
does fail, but not with the stated error. -/
theorem trans_state_check_raises_name_error :
    Eckart.init [pfSpecies] pfTransZero [pfSpecies] =
      .error (.nameError .pf_prod) ∧
    Eckart.init [pfSpecies] pfTransTwo [pfSpecies] =
      .error (.nameError .pf_prod) ∧
    Wigner.init pfTransZero = .error (.nameError .pf_prod) ∧
    Wigner.init pfTransTwo = .error (.nameError .pf_prod) ∧
    Miller.init pfTransZero = .error (.nameError .pf_prod) ∧
    Miller.init pfTransTwo = .error (.nameError .pf_prod) ∧
    (∀ m : ValueErrMsg,
      Eckart.init [pfSpecies] pfTransZero [pfSpecies] ≠
        .error (.valueError m)) := by
  refine ⟨rfl, rfl, rfl, rfl, rfl, rfl, ?_⟩
  intro m h
  rw [show Eckart.init [pfSpecies] pfTransZero [pfSpecies] =
    .error (.nameError .pf_prod) from rfl] at h
  exact absurd (Except.error.inj h) (by intro hc; cases hc)

/-- The modelled Boltzmann constant is strictly positive. -/
lemma boltzmann_pos : (0 : ℝ) < boltzmann := by
  rw [boltzmann]; norm_num

/-- The modelled Planck constant `2 π` is strictly positive. -/
lemma planck_pos : (0 : ℝ) < planck := by
  rw [planck]; positivity

/-- Claim C3, counterexample.  The claim says `Miller` with `nu = 0`
returns 1 at every positive temperature.  The source evaluates
`x/numpy.sin(x)` at `x = 0` with no special case, a `0/0` quotient (NaN
in floating point, 0 under the real-division convention of this
embedding) — in particular not 1 — shown here at `T = 300`. -/
theorem miller_nu_zero_counterexample :
    millerFactor 0 300 = 0 ∧ millerFactor 0 300 ≠ 1 := by
  have h : millerFactor 0 300 = 0 := by
    simp [millerFactor]
  exact ⟨h, by rw [h]; norm_num⟩

/-- Claim C3, amended: a `Miller` correction with `nu = 0` evaluates its
intermediate `x = 0.5*planck*nu/(boltzmann*T)` to zero, so it returns the
quotient `0/sin(0) = 0/0` — an undefined form surfaced as a non-finite
value by the implementation, equal to 0 under the embedding's real
division — rather than the limit value 1, at every temperature `T > 0`. -/
theorem miller_nu_zero_undefined (T : ℝ) (hT : 0 < T) :
    0.5 * planck * 0 / (boltzmann * T) = 0 ∧
    Real.sin (0.5 * planck * 0 / (boltzmann * T)) = 0 ∧
    millerFactor 0 T = 0 / (0 : ℝ) := by
  refine ⟨by simp, by simp, ?_⟩
  simp [millerFactor]

/-- Witness for `miller_nu_zero_undefined` at `T = 300`. -/
theorem miller_nu_zero_undefined_witness :
    0.5 * planck * 0 / (boltzmann * 300) = 0 ∧
    Real.sin (0.5 * planck * 0 / (boltzmann * 300)) = 0 ∧
    millerFactor 0 300 = 0 / (0 : ℝ) :=
  miller_nu_zero_undefined 300 (by norm_num)

/-- Claim C4, counterexample.  The claim (following spec step 1) reads
the barrier-width parameter as `√2 · (Ef^(−1/2) + Er^(−1/2)) / ν`, but
line 138 computes `(Ef^(−1/2) + Er^(−1/2))^(−1) · √2 / ν`, the sum
inverted rather than multiplied.  At `Ef = Er = 1`, `ν = 1` the source
gives `√2/2` while the claim's expression gives `2·√2`. -/
theorem eckartL_spec_mismatch : eckartL 1 1 1 ≠ eckartLSpec 1 1 1 := by
  have h2 : (0 : ℝ) < Real.sqrt 2 := Real.sqrt_pos.mpr (by norm_num)
  intro h
  rw [eckartL, eckartLSpec, Real.one_rpow] at h
  norm_num at h
  nlinarith [h2, h]

/-- Claim C4, amended: for every `Ef`, `Er`, `nu`, the reduced
barrier-width parameter of the per-temperature evaluation equals
`l = (Ef^(−1/2) + Er^(−1/2))^(−1) · √2 / ν`, that is,
`√2 / [(Ef^(−1/2) + Er^(−1/2)) · ν]` — the sum of the inverse square
roots sits in the denominator, not the numerator. -/
theorem eckartL_reduced_width (Ef Er nu : ℝ) :
    eckartL Ef Er nu =
      Real.sqrt 2 / ((Ef ^ (-(0.5 : ℝ)) + Er ^ (-(0.5 : ℝ))) * nu) := by
  rw [eckartL, div_eq_mul_inv, div_eq_mul_inv, mul_inv]
  ring

/-- Claim C5: for every stored frequency and every `T > 0`, the Wigner
correction at a scalar temperature is exactly
`1 + (planck·nu/(boltzmann·T))²/24`, with the Planck and Boltzmann
constants of the shared units module. -/
theorem wigner_formula (q : WignerParams ℝ) (T : ℝ) (hT : 0 < T) :
    Wigner.call q (.scalar T) =
      .scalar (1 + (planck * q.nu / (boltzmann * T)) ^ 2 / 24) := rfl

/-- Witness for `wigner_formula` at `nu = 1`, `T = 300`. -/
theorem wigner_formula_witness :
    Wigner.call (⟨1⟩ : WignerParams ℝ) (.scalar 300) =
      .scalar (1 + (planck * 1 / (boltzmann * 300)) ^ 2 / 24) := by
  simpa using wigner_formula ⟨1⟩ 300 (by norm_num)

/-- Claim C10: for every real stored frequency and every `T > 0`, the
Wigner factor is at least 1, with equality exactly when `nu = 0`: the
squared term is a non-negative addition to 1, also for negative `nu`. -/
theorem wigner_factor_ge_one (nu T : ℝ) (hT : 0 < T) :
    1 ≤ wignerFactor nu T ∧ (wignerFactor nu T = 1 ↔ nu = 0) := by
  have hbT : boltzmann * T ≠ 0 := ne_of_gt (mul_pos boltzmann_pos hT)
  have hp : planck ≠ 0 := ne_of_gt planck_pos
  constructor
  · rw [wignerFactor]
    nlinarith [sq_nonneg (planck * nu / (boltzmann * T))]
  · rw [wignerFactor]
    constructor
    · intro h
      have hsq : (planck * nu / (boltzmann * T)) ^ 2 = 0 := by linarith
      have hx : planck * nu / (boltzmann * T) = 0 := by
        exact sq_eq_zero_iff.mp hsq
      rcases div_eq_zero_iff.mp hx with h1 | h1
      · rcases mul_eq_zero.mp h1 with h2 | h2
        · exact absurd h2 hp
        · exact h2
      · exact absurd h1 hbT
    · intro h
      subst h
      simp

/-- Witness for `wigner_factor_ge_one` at `nu = 0`, `T = 300`. -/
theorem wigner_factor_ge_one_witness :
    1 ≤ wignerFactor 0 300 ∧ (wignerFactor 0 300 = 1 ↔ (0 : ℝ) = 0) :=
  wigner_factor_ge_one 0 300 (by norm_num)

/-- Claim C6: for every Eckart instance and every `T > 0`, the
per-temperature result is the quadrature estimate of
`P(E) · exp(−(E − Ef)/(boltzmann·T))` over exactly
`[max(0, Ef − Er), 500·kjmol]`, divided by `boltzmann·T` (the quadrature
primitive being modelled as the exact interval integral). -/
theorem eckart_integral_structure (p : EckartParams ℝ) (T : ℝ)
    (hT : 0 < T) :
    Eckart.call p (.scalar T) =
      .scalar ((∫ E in (max 0 (p.Ef - p.Er))..(500 * kjmol),
        eckartP p E * Real.exp (-(E - p.Ef) / (boltzmann * T))) /
        (boltzmann * T)) := by
  simp only [Eckart.call, eckartComputeOneTemp, eckartIntegrand,
    mul_one_div]

/-- Witness for `eckart_integral_structure` at `Ef = Er = 1`, `nu = -1`,
`T = 300`. -/
theorem eckart_integral_structure_witness :
    Eckart.call (⟨1, 1, -1⟩ : EckartParams ℝ) (.scalar 300) =
      .scalar ((∫ E in (max 0 ((1 : ℝ) - 1))..(500 * kjmol),
        eckartP ⟨1, 1, -1⟩ E * Real.exp (-(E - 1) / (boltzmann * 300))) /
        (boltzmann * 300)) :=
  eckart_integral_structure ⟨1, 1, -1⟩ 300 (by norm_num)

/-- Claim C7: with a valid transition state and a non-empty reactant
list, `Eckart.__init__` rejects a negative forward barrier and (when the
forward barrier is non-negative) a negative reverse barrier with the
barrier `ValueError`s, producing no instance; `_from_parameters` enforces
the same checks on its `Ef` and `Er` arguments. -/
theorem eckart_barrier_validation
    (pfs_react pfs_prod : List (PartitionFunction α))
    (pf_trans : PartitionFunction α) (Ef Er nu : α) :
    (pf_trans.vibrational.negative_freqs.length = 1 → pfs_react ≠ [] →
      barrierEnergy pf_trans pfs_react < 0 →
      Eckart.init pfs_react pf_trans pfs_prod =
        .error (.valueError .fwdBarrierNeg)) ∧
    (pf_trans.vibrational.negative_freqs.length = 1 → pfs_react ≠ [] →
      0 ≤ barrierEnergy pf_trans pfs_react →
      barrierEnergy pf_trans pfs_prod < 0 →
      Eckart.init pfs_react pf_trans pfs_prod =
        .error (.valueError .revBarrierNeg)) ∧
    (Ef < 0 → Eckart.fromParameters Ef Er nu =
      .error (.valueError .fwdBarrierNeg)) ∧
    (0 ≤ Ef → Er < 0 → Eckart.fromParameters Ef Er nu =
      .error (.valueError .revBarrierNeg)) := by
  refine ⟨?_, ?_, ?_, ?_⟩
  · intro h1 h2 h3
    simp [Eckart.init, h1, h2, h3, List.length_eq_zero]
  · intro h1 h2 h3 h4
    simp [Eckart.init, h1, h2, not_lt.mpr h3, h4, List.length_eq_zero]
  · intro h1
    simp [Eckart.fromParameters, h1]
  · intro h1 h2
    simp [Eckart.fromParameters, not_lt.mpr h1, h2]

/-- Witness for `eckart_barrier_validation`: a negative forward barrier
(reactant energy 5 above the transition state at energy 1), a negative
reverse barrier (product energy 5), and the corresponding
`_from_parameters` calls. -/
theorem eckart_barrier_validation_witness :
    Eckart.init [pfHigh] pfTransOk [pfSpecies] =
      .error (.valueError .fwdBarrierNeg) ∧
    Eckart.init [pfSpecies] pfTransOk [pfHigh] =
      .error (.valueError .revBarrierNeg) ∧
    Eckart.fromParameters (-1 : ℚ) 5 1 =
      .error (.valueError .fwdBarrierNeg) ∧
    Eckart.fromParameters (5 : ℚ) (-1) 1 =
      .error (.valueError .revBarrierNeg) := by
  refine ⟨?_, ?_, ?_, ?_⟩
  · exact (eckart_barrier_validation [pfHigh] [pfSpecies] pfTransOk
      (0 : ℚ) 0 0).1 (by decide) (by simp)
      (by norm_num [barrierEnergy, pfHigh, pfTransOk])
  · exact (eckart_barrier_validation [pfSpecies] [pfHigh] pfTransOk
      (0 : ℚ) 0 0).2.1 (by decide) (by simp)
      (by norm_num [barrierEnergy, pfSpecies, pfTransOk])
      (by norm_num [barrierEnergy, pfHigh, pfTransOk])
  · exact (eckart_barrier_validation ([] : List (PartitionFunction ℚ))
      [] pfTransOk (-1) 5 1).2.2.1 (by norm_num)
  · exact (eckart_barrier_validation ([] : List (PartitionFunction ℚ))
      [] pfTransOk 5 (-1) 1).2.2.2 (by norm_num) (by norm_num)

/-- Claim C8: each of the three corrections maps a scalar temperature to
a single scalar factor and a temperature sequence to a factor sequence of
the same length whose i-th entry is the correction of the i-th input
temperature. -/
theorem compute_shape_preservation (p : EckartParams ℝ)
    (q : WignerParams ℝ) (r : MillerParams ℝ) (T : ℝ) (Ts : List ℝ) :
    (Eckart.call p (.scalar T) = .scalar (eckartComputeOneTemp p T) ∧
     Eckart.call p (.vector Ts) =
       .vector (Ts.map (eckartComputeOneTemp p)) ∧
     (Ts.map (eckartComputeOneTemp p)).length = Ts.length ∧
     (∀ i (h : i < Ts.length),
       (Ts.map (eckartComputeOneTemp p)).get ⟨i, by simpa using h⟩ =
         eckartComputeOneTemp p (Ts.get ⟨i, h⟩))) ∧
    (Wigner.call q (.scalar T) = .scalar (wignerFactor q.nu T) ∧
     Wigner.call q (.vector Ts) = .vector (Ts.map (wignerFactor q.nu)) ∧
     (Ts.map (wignerFactor q.nu)).length = Ts.length ∧
     (∀ i (h : i < Ts.length),
       (Ts.map (wignerFactor q.nu)).get ⟨i, by simpa using h⟩ =
         wignerFactor q.nu (Ts.get ⟨i, h⟩))) ∧
    (Miller.call r (.scalar T) = .scalar (millerFactor r.nu T) ∧
     Miller.call r (.vector Ts) = .vector (Ts.map (millerFactor r.nu)) ∧
     (Ts.map (millerFactor r.nu)).length = Ts.length ∧
     (∀ i (h : i < Ts.length),
       (Ts.map (millerFactor r.nu)).get ⟨i, by simpa using h⟩ =
         millerFactor r.nu (Ts.get ⟨i, h⟩))) := by
  refine ⟨⟨rfl, rfl, by simp, ?_⟩, ⟨rfl, rfl, by simp, ?_⟩,
    ⟨rfl, rfl, by simp, ?_⟩⟩ <;>
  · intro i h
    simp [List.get_eq_getElem]

/-- Witness for `compute_shape_preservation` on the two-temperature
sequence `[300, 400]` at index 1. -/
theorem compute_shape_preservation_witness :
    Wigner.call (⟨1⟩ : WignerParams ℝ) (.vector [300, 400]) =
      .vector (([300, 400] : List ℝ).map (wignerFactor 1)) ∧
    (([300, 400] : List ℝ).map (wignerFactor 1)).get ⟨1, by simp⟩ =
      wignerFactor 1 (([300, 400] : List ℝ).get ⟨1, by norm_num⟩) := by
  obtain ⟨-, hw, -⟩ :=
    compute_shape_preservation ⟨1, 1, -1⟩ ⟨1⟩ ⟨1⟩ 300 [300, 400]
  obtain ⟨-, hvec, -, hget⟩ := hw
  exact ⟨hvec, hget 1 (by norm_num)⟩

/-- Claim C9: the three `__call__` methods neither write any stored
attribute (the explicit-state embedding returns the pre-state unchanged,
field by field) nor depend on anything but the stored parameters and the
temperature argument: equal temperature inputs give equal results. -/
theorem compute_pure (p : EckartParams ℝ) (q : WignerParams ℝ)
    (r : MillerParams ℝ) (t t1 t2 : Temps) (h : t1 = t2) :
    (Eckart.callSt p t).1 = p ∧ (Wigner.callSt q t).1 = q ∧
    (Miller.callSt r t).1 = r ∧
    (Eckart.callSt p t).1.Ef = p.Ef ∧ (Eckart.callSt p t).1.Er = p.Er ∧
    (Eckart.callSt p t).1.nu = p.nu ∧
    (Wigner.callSt q t).1.nu = q.nu ∧
    (Miller.callSt r t).1.nu = r.nu ∧
    (Eckart.callSt p t1).2 = (Eckart.callSt p t2).2 ∧
    (Wigner.callSt q t1).2 = (Wigner.callSt q t2).2 ∧
    (Miller.callSt r t1).2 = (Miller.callSt r t2).2 := by
  subst h
  exact ⟨rfl, rfl, rfl, rfl, rfl, rfl, rfl, rfl, rfl, rfl, rfl⟩

/-- Witness for `compute_pure` at concrete parameters and the repeated
scalar temperature 300. -/
theorem compute_pure_witness :
    (Eckart.callSt ⟨1, 1, -1⟩ (.scalar 300)).1 =
      (⟨1, 1, -1⟩ : EckartParams ℝ) ∧
    (Miller.callSt (⟨1⟩ : MillerParams ℝ) (.scalar 300)).2 =
      (Miller.callSt ⟨1⟩ (.scalar 300)).2 := by
  obtain ⟨h1, -, -, -, -, -, -, -, -, -, h11⟩ :=
    compute_pure ⟨1, 1, -1⟩ ⟨1⟩ ⟨1⟩ (.scalar 300) (.scalar 300)
      (.scalar 300) rfl
  exact ⟨h1, h11⟩

end Tamkin
